import Mathlib

/-!
Shallow embedding of the nimble deployment agent (Rust) in Lean 4.

The embedding follows the source files:
  crates/agent/src/workers/build.rs   (build worker, archive extraction)
  crates/agent/src/workers/deploy.rs  (deploy worker, container retirement)
  crates/agent/src/db.rs              (SQLite-backed store)
  crates/agent/src/api.rs             (HTTP handlers and error mapping)
  crates/core/src/config.rs           (nimble.yaml loader)

Conventions:
* 128-bit UUIDs are modelled as `Nat` (only identity matters).
* The SQLite tables are modelled as association lists; `created_at` and
  `updated_at` timestamps are elided (no claim mentions them).
* Subprocess invocations (`docker run`, `docker rm`, `docker port`) and
  builder invocations are modelled by an environment record carrying each
  call's outcome; `none` models `Command::output()` itself failing.
* SQL `UPDATE` statements execute without error regardless of how many rows
  match, so the corresponding store operations always return `.ok ()`;
  connection-level failures are not modelled.  The `INSERT` of a build row
  can fail (duplicate primary key, or a store-level failure supplied by the
  environment).
-/

set_option autoImplicit false

namespace Nimble

/-- Opaque 128-bit identifier (uuid::Uuid); only equality and printing are
used by the agent, so `Nat` suffices. -/
abbrev Uuid := Nat

/-- BuildStatus from crates/agent/src/workers/build.rs. -/
inductive BuildStatus
  | queued
  | building
  | success
  | failed
deriving DecidableEq

/-- DeployStatus from crates/agent/src/workers/deploy.rs. -/
inductive DeployStatus
  | queued
  | deploying
  | running
  | failed
  | stopped
deriving DecidableEq

/-! ## Archive extraction (crates/agent/src/workers/build.rs) -/

/-- A component of a tar entry path, mirroring `std::path::Component`.
The Windows-only `Prefix` variant is omitted (the agent targets Linux
paths); like `rootDir` and `parentDir` it would fall into the rejected
default arm of `sanitize_tar_path`. -/
inductive PathComponent
  | rootDir
  | curDir
  | parentDir
  | normal (name : String)
deriving DecidableEq

/-- Whether `sanitize_tar_path` accepts this component. -/
def PathComponent.allowed : PathComponent → Bool
  | .normal _ => true
  | .curDir => true
  | _ => false

/-- The names of the `Normal` components of a path, in order. -/
def normalNames (l : List PathComponent) : List String :=
  l.filterMap fun c =>
    match c with
    | .normal s => some s
    | _ => none

/-- The loop body of `sanitize_tar_path`: starting from `out` (initially the
base directory), push each `Normal` component, skip `CurDir`, and fail on
anything else. -/
def sanitizeLoop : List String → List PathComponent → Except String (List String)
  | out, [] => .ok out
  | out, .normal c :: rest => sanitizeLoop (out ++ [c]) rest
  | out, .curDir :: rest => sanitizeLoop out rest
  | _, _ :: _ => .error "invalid path component in archive entry"

/-- `sanitize_tar_path` from build.rs: joins `base` with the entry's normal
components, rejecting any other component (error-message formatting of the
offending path is elided). -/
def sanitize_tar_path (entry_path : List PathComponent) (base : List String) :
    Except String (List String) :=
  sanitizeLoop base entry_path

/-- One tar archive entry: its path and its declared size in bytes. -/
structure TarEntry where
  path : List PathComponent
  size : Nat
deriving DecidableEq

/-- `MAX_FILE_SIZE` from `extract_archive`: 100 MiB. -/
def MAX_FILE_SIZE : Nat := 100 * 1024 * 1024

/-- The entry loop of `BuildWorker::extract_archive`: each entry's path is
sanitized, its declared size is checked against `MAX_FILE_SIZE`, and the
entry is unpacked at the sanitized path.  The result is the list of
unpacked destination paths (parent-directory creation and the actual file
write are local filesystem effects, modelled as infallible). -/
def extract_archive (extract_to : List String) :
    List TarEntry → Except String (List (List String))
  | [] => .ok []
  | e :: rest =>
    match sanitize_tar_path e.path extract_to with
    | .error msg => .error msg
    | .ok safe_path =>
      if MAX_FILE_SIZE < e.size then
        .error "file exceeds max size"
      else
        match extract_archive extract_to rest with
        | .error msg => .error msg
        | .ok paths => .ok (safe_path :: paths)

/-! ## String primitives

The Rust code uses `str::to_lowercase`, `trim`, `lines`, `rsplit_once`,
`contains` and `is_empty`.  These are re-implemented here structurally over
the character list of a `String` (restricted to the ASCII inputs the agent
handles), so that concrete runs reduce definitionally. -/

/-- `str::to_lowercase` (ASCII). -/
def strToLower (s : String) : String := ⟨s.data.map Char.toLower⟩

/-- Strip leading and trailing whitespace from a character list. -/
def trimChars (l : List Char) : List Char :=
  ((l.dropWhile Char.isWhitespace).reverse.dropWhile Char.isWhitespace).reverse

/-- `str::trim`. -/
def strTrim (s : String) : String := ⟨trimChars s.data⟩

/-- `str::is_empty`. -/
def strIsEmpty (s : String) : Bool := s.data.isEmpty

/-- Whether `pat` occurs as a contiguous substring. -/
def infixCheck (pat : List Char) : List Char → Bool
  | [] => pat.isEmpty
  | c :: t => pat.isPrefixOf (c :: t) || infixCheck pat t

/-- `str::contains` for a fixed pattern. -/
def strContains (s pat : String) : Bool := infixCheck pat.data s.data

/-- Split a character list on a separator (every occurrence). -/
def splitOnChar (sep : Char) : List Char → List (List Char)
  | [] => [[]]
  | c :: rest =>
    let r := splitOnChar sep rest
    if c = sep then [] :: r
    else
      match r with
      | [] => [[c]]
      | h :: t => (c :: h) :: t

/-- `str::rsplit_once(':')`, keeping only the part after the last colon. -/
def rsplitAfterColon (line : List Char) : Option (List Char) :=
  if line.contains ':' then
    some ((line.reverse.takeWhile fun c => c ≠ ':').reverse)
  else none

/-! ## Project config loader (crates/core/src/config.rs) -/

/-- BuilderType from config.rs. -/
inductive BuilderType
  | dockerfile
  | go
deriving DecidableEq

/-- ConfigError from config.rs. -/
inductive ConfigError
  | ioError (msg : String)
  | parseError (msg : String)
  | missingField (field : String)
  | invalidBuilder (builder : String)
deriving DecidableEq

/-- `BuilderType::from_str`: case-insensitive match on the two known
builders. -/
def BuilderType.from_str (s : String) : Except ConfigError BuilderType :=
  match strToLower s with
  | "dockerfile" => .ok .dockerfile
  | "go" => .ok .go
  | _ => .error (.invalidBuilder s)

/-- A scalar from the parsed YAML document (`serde_yaml::Value`), restricted
to what `NimbleConfig::from_str` inspects. -/
inductive YamlVal
  | str (s : String)
  | int (n : Int)
  | boolean (b : Bool)
  | other
deriving DecidableEq

/-- A parsed YAML mapping: the well-formed input to `NimbleConfig::from_str`
after `serde_yaml::from_str` succeeds (YAML-text parse failures are outside
this model). -/
abbrev YamlDoc := List (String × YamlVal)

/-- `Value::get(key)` on a mapping. -/
def yamlGet (doc : YamlDoc) (key : String) : Option YamlVal :=
  (doc.find? fun kv => kv.1 == key).map (·.2)

/-- `Value::as_str`. -/
def YamlVal.as_str : YamlVal → Option String
  | .str s => some s
  | _ => none

/-- `Value::as_u64`: defined exactly on integers representable in 64 bits
unsigned. -/
def YamlVal.as_u64 : YamlVal → Option Nat
  | .int n => if 0 ≤ n ∧ n ≤ ((2 ^ 64 - 1 : Nat) : Int) then some n.toNat else none
  | _ => none

/-- NimbleConfig from config.rs; `port` is a `u16`, kept as `Nat` with the
truncation made explicit where it happens. -/
structure NimbleConfig where
  builder_type : BuilderType
  app : String
  port : Nat
deriving DecidableEq

/-- `default_app_port` from config.rs. -/
def default_app_port : Nat := 8080

/-- `NimbleConfig::from_str` (on an already-parsed YAML mapping): extract
`builder` (required string, known builder), `port` (optional integer,
`v as u16` truncates modulo 2^16, defaulting to 8080), and `app` (required
string), in the source's evaluation order. -/
def NimbleConfig.from_str (raw : YamlDoc) : Except ConfigError NimbleConfig :=
  match (yamlGet raw "builder").bind YamlVal.as_str with
  | none => .error (.missingField "builder")
  | some builder_str =>
    match BuilderType.from_str builder_str with
    | .error e => .error e
    | .ok builder_type =>
      let port := (((yamlGet raw "port").bind YamlVal.as_u64).map
        fun v => v % 65536).getD default_app_port
      match (yamlGet raw "app").bind YamlVal.as_str with
      | none => .error (.missingField "app")
      | some app => .ok { builder_type := builder_type, app := app, port := port }

/-! ## The store (crates/agent/src/db.rs) -/

/-- A row of the `deployments` table (timestamps elided). -/
structure DeploymentRecord where
  id : Uuid
  build_id : Uuid
  app : String
  image : String
  status : DeployStatus
  container_id : Option String
  container_name : Option String
  address : Option String
deriving DecidableEq

/-- The persistent state behind `Database`: the `builds`, `deployments` and
`apps` tables. -/
structure Database where
  builds : List (Uuid × BuildStatus)
  deployments : List DeploymentRecord
  apps : List (String × Option Uuid)
deriving DecidableEq

/-- `Database::update_build_status`: an unconditional SQL UPDATE by id.  It
rewrites every matching row (zero or one, since `id` is the primary key)
and succeeds regardless of how many rows matched. -/
def Database.update_build_status (db : Database) (build_id : Uuid)
    (status : BuildStatus) : Database × Except String Unit :=
  ({ db with builds := db.builds.map fun b =>
      if b.1 = build_id then (b.1, status) else b },
   .ok ())

/-- `Database::update_deployment_status`: unconditional UPDATE by id. -/
def Database.update_deployment_status (db : Database) (deploy_id : Uuid)
    (status : DeployStatus) : Database × Except String Unit :=
  ({ db with deployments := db.deployments.map fun d =>
      if d.id = deploy_id then { d with status := status } else d },
   .ok ())

/-- `Database::set_deployment_container`: UPDATE of the container columns by
id. -/
def Database.set_deployment_container (db : Database) (deploy_id : Uuid)
    (container_id container_name : String) (address : Option String) :
    Database × Except String Unit :=
  ({ db with deployments := db.deployments.map fun d =>
      if d.id = deploy_id then
        { d with container_id := some container_id,
                 container_name := some container_name,
                 address := address }
      else d },
   .ok ())

/-- `Database::set_active_deployment`: UPDATE of `apps.active_deployment_id`
by app name.  (Present in db.rs; the deploy worker never invokes it.) -/
def Database.set_active_deployment (db : Database) (app : String)
    (deploy_id : Option Uuid) : Database × Except String Unit :=
  ({ db with apps := db.apps.map fun a =>
      if a.1 = app then (a.1, deploy_id) else a },
   .ok ())

/-- `Database::get_deployment`: SELECT by primary key. -/
def Database.get_deployment (db : Database) (deploy_id : Uuid) :
    Option DeploymentRecord :=
  db.deployments.find? fun d => d.id == deploy_id

/-! ## Deploy worker (crates/agent/src/workers/deploy.rs) -/

/-- DeployJob from deploy.rs. -/
structure DeployJob where
  deploy_id : Uuid
  build_id : Uuid
  app : String
  previous_active_deployment : Option Uuid
  image_reference : String
  app_port : Nat
deriving DecidableEq

/-- The observable result of one subprocess invocation
(`std::process::Output`). -/
structure CmdOutput where
  success : Bool
  stdout : String
  stderr : String
deriving DecidableEq

/-- Outcomes of the container-engine calls a single `process_deploy` run can
make; `none` models `Command::output()` itself returning an error. -/
structure DeployEnv where
  run : Option CmdOutput
  rm : Option CmdOutput
  port : Option CmdOutput
deriving DecidableEq

/-- The failure cases of the deploy path (anyhow error formatting reduced to
the distinguishing data). -/
inductive DeployError
  | storeError (msg : String)
  | execFailed (what : String)
  | dockerRunFailed (stderr : String)
  | noContainerId
  | dockerPortFailed (stderr : String)
  | dockerRmFailed (stderr : String)
deriving DecidableEq

/-- `DeployWorker::lookup_host_port`: run `docker port`, fail on a non-zero
exit, then scan stdout line by line for the substring after the last colon
(`rsplit_once(':')`), trimmed.  (Rust `str::lines` also drops a final empty
line and a trailing carriage return; an empty line has no colon, so it is
skipped either way, and stdout of `docker port` carries no `\r`.) -/
def lookup_host_port (env : DeployEnv) : Except DeployError (Option String) :=
  match env.port with
  | none => .error (.execFailed "Failed to query docker port mapping")
  | some out =>
    if out.success = false then
      .error (.dockerPortFailed out.stderr)
    else
      .ok ((splitOnChar '\n' out.stdout.data).findSome? fun line =>
        (rsplitAfterColon line).map fun port => (⟨trimChars port⟩ : String))

/-- The container-removal block of `stop_previous_deployment`: with a
container reference (name first, falling back to id), `docker rm -f` is
issued — a failure whose lowercased stderr mentions "no such container" is
tolerated, any other failure is an error; without a reference nothing is
attempted. -/
def removal_outcome (env : DeployEnv) (record : DeploymentRecord) :
    Except DeployError Unit :=
  match record.container_name.or record.container_id with
  | none => .ok ()
  | some _ =>
    match env.rm with
    | none => .error (.execFailed "Failed to remove previous deployment container")
    | some out =>
      if !out.success && !strContains (strToLower out.stderr) "no such container" then
        .error (.dockerRmFailed out.stderr)
      else
        .ok ()

/-- `DeployWorker::stop_previous_deployment`: an absent record is a success;
otherwise run the removal block and, if it did not abort, set the record's
status to `Stopped`. -/
def stop_previous_deployment (env : DeployEnv) (db : Database)
    (deploy_id : Uuid) : Database × Except DeployError Unit :=
  match db.get_deployment deploy_id with
  | none => (db, .ok ())
  | some record =>
    match removal_outcome env record with
    | .error e => (db, .error e)
    | .ok () =>
      match db.update_deployment_status deploy_id .stopped with
      | (db1, .error e) => (db1, .error (.storeError e))
      | (db1, .ok ()) => (db1, .ok ())

/-- `DeployWorker::process_deploy`: mark Deploying; best-effort retirement of
the previous deployment (its failure is logged only); `docker run`; on a
non-zero exit or an empty container id mark Failed and abort; look up the
host port; record the container columns; mark Running. -/
def process_deploy (env : DeployEnv) (db : Database) (job : DeployJob) :
    Database × Except DeployError Unit :=
  match db.update_deployment_status job.deploy_id .deploying with
  | (db1, .error e) => (db1, .error (.storeError e))
  | (db1, .ok ()) =>
    let db2 :=
      match job.previous_active_deployment with
      | some previous => (stop_previous_deployment env db1 previous).1
      | none => db1
    let container_name := "nimble-deploy-" ++ toString job.deploy_id
    match env.run with
    | none => (db2, .error (.execFailed "Failed to execute docker run"))
    | some output =>
      if output.success = false then
        match db2.update_deployment_status job.deploy_id .failed with
        | (db3, .error e) => (db3, .error (.storeError e))
        | (db3, .ok ()) => (db3, .error (.dockerRunFailed output.stderr))
      else
        let container_id := strTrim output.stdout
        if strIsEmpty container_id then
          match db2.update_deployment_status job.deploy_id .failed with
          | (db3, .error e) => (db3, .error (.storeError e))
          | (db3, .ok ()) => (db3, .error .noContainerId)
        else
          match lookup_host_port env with
          | .error e => (db2, .error e)
          | .ok host_port =>
            let address := host_port.map fun port => "http://127.0.0.1:" ++ port
            match db2.set_deployment_container job.deploy_id container_id
                container_name address with
            | (db3, .error e) => (db3, .error (.storeError e))
            | (db3, .ok ()) =>
              match db3.update_deployment_status job.deploy_id .running with
              | (db4, .error e) => (db4, .error (.storeError e))
              | (db4, .ok ()) => (db4, .ok ())

/-! ## Build worker (crates/agent/src/workers/build.rs) -/

/-- BuildJob as declared in workers/build.rs (this snapshot of the struct
carries only the build id). -/
structure BuildJob where
  build_id : Uuid
deriving DecidableEq

/-- An image produced by a builder (crates/core/src/builders/mod.rs). -/
structure Image where
  reference : String
  digest : Option String
deriving DecidableEq

/-- Failure cases of `process_build` (anyhow contexts reduced to the
distinguishing data). -/
inductive BuildError
  | extractFailed (msg : String)
  | noNimbleYaml
  | configError (e : ConfigError)
  | buildFailed (msg : String)
deriving DecidableEq

/-- The external state one build job runs against: the opened archive
(`none` models the archive file failing to open), whether
`build_dir/nimble.yaml` exists, its parsed contents when it does, and the
outcome of a Dockerfile-builder invocation. -/
structure BuildEnv where
  archive : Option (List TarEntry)
  has_nimble_yaml : Bool
  nimble_yaml : YamlDoc
  docker_build : Except String Image

/-- Dispatch of `select_builder` followed by `Builder::build`: the Go
builder (crates/core/src/builders/go.rs) unconditionally fails with
"unimplemented"; the Dockerfile builder shells out to `docker build`, whose
outcome the environment supplies. -/
def builder_build (bt : BuilderType) (env : BuildEnv) : Except String Image :=
  match bt with
  | .go => .error "unimplemented"
  | .dockerfile => env.docker_build

/-- `BuildWorker::process_build`: extract the archive into the per-build
directory, require `nimble.yaml`, load the config, select and run the
builder.  The source's `BuildWorker` holds no store handle: no path of this
function writes to the store (the body carries TODOs
"set build as failed in DB" and "update image info in DB").  The store
state is threaded through unchanged to make that absence statable. -/
def process_build (env : BuildEnv) (db : Database) (job : BuildJob) :
    Database × Except BuildError Unit :=
  let build_dir : List String := ["artifacts", "build", toString job.build_id]
  match env.archive with
  | none => (db, .error (.extractFailed "opening archive"))
  | some entries =>
    match extract_archive build_dir entries with
    | .error msg => (db, .error (.extractFailed msg))
    | .ok _paths =>
      if env.has_nimble_yaml = false then
        (db, .error .noNimbleYaml)
      else
        match NimbleConfig.from_str env.nimble_yaml with
        | .error e => (db, .error (.configError e))
        | .ok cfg =>
          match builder_build cfg.builder_type env with
          | .error msg => (db, .error (.buildFailed msg))
          | .ok _image => (db, .ok ())

/-- `BuildWorker::run`: drain the queue; a per-job failure is logged and the
loop continues; the loop ends only when the channel is closed (the job list
is exhausted).  Returns the final store state and each job's outcome. -/
def BuildWorker_run (db : Database) :
    List (BuildJob × BuildEnv) → Database × List (Except BuildError Unit)
  | [] => (db, [])
  | (job, env) :: rest =>
    let step := process_build env db job
    let tail := BuildWorker_run step.1 rest
    (tail.1, step.2 :: tail.2)

/-! ## HTTP handlers (crates/agent/src/api.rs) -/

/-- BuildJob as constructed by the api.rs snapshot's `create_build` handler
(this snapshot of the struct also carries the deploy flag). -/
structure ApiBuildJob where
  build_id : Uuid
  deploy : Bool
deriving DecidableEq

/-- `tokio::sync::mpsc::error::TrySendError`, reduced to its tag. -/
inductive TrySendError
  | full
  | closed
deriving DecidableEq

/-- The bounded build queue: a tokio mpsc channel of the given capacity. -/
structure BuildQueue where
  capacity : Nat
  queued : List ApiBuildJob
  closed : Bool
deriving DecidableEq

/-- `Sender::try_send`: fails with `Closed` on a closed channel, with `Full`
when the buffer already holds `capacity` messages, and otherwise appends the
message. -/
def BuildQueue.try_send (q : BuildQueue) (job : ApiBuildJob) :
    BuildQueue × Option TrySendError :=
  if q.closed then (q, some .closed)
  else if q.capacity ≤ q.queued.length then (q, some .full)
  else ({ q with queued := q.queued ++ [job] }, none)

/-- ApiError from api.rs (the `Internal` payload reduced to its message). -/
inductive ApiError
  | notFound
  | badRequest (msg : String)
  | internal (msg : String)
  | serviceUnavailable (msg : String)
deriving DecidableEq

/-- Serialization of `ErrorResponse { error: msg }` by serde_json (msg
assumed not to need escaping, which holds for every message the agent
produces here). -/
def jsonError (msg : String) : String :=
  "\x7b\"error\":\"" ++ msg ++ "\"\x7d"

/-- `impl IntoResponse for ApiError`: status code and JSON body. -/
def ApiError.into_response : ApiError → Nat × String
  | .notFound => (404, jsonError "not found")
  | .badRequest msg => (400, jsonError msg)
  | .internal _ => (500, jsonError "internal server error")
  | .serviceUnavailable msg => (503, jsonError msg)

/-- The outcome the store produces for the `INSERT INTO builds` issued by
the handler (models sqlx-level failures such as a lost connection). -/
structure StoreEnv where
  insert_result : Except String Unit

/-- `Database::create_build`: INSERT of a new build row; fails on a
duplicate primary key or on a store-level failure from the environment. -/
def Database.create_build (env : StoreEnv) (db : Database) (build_id : Uuid)
    (status : BuildStatus) : Database × Except String Unit :=
  if db.builds.any fun b => b.1 == build_id then
    (db, .error "UNIQUE constraint failed: builds.id")
  else
    match env.insert_result with
    | .error e => (db, .error e)
    | .ok () => ({ db with builds := db.builds ++ [(build_id, status)] }, .ok ())

/-- The state the api.rs handlers see: archives saved to disk, the build
queue sender, and the store. -/
structure ApiState where
  archives : List (Uuid × String)
  build_queue : BuildQueue
  db : Database
deriving DecidableEq

/-- The success body of `POST /builds`. -/
structure CreateBuildResponse where
  build_id : Uuid
  status : BuildStatus
deriving DecidableEq

/-- The `create_build` handler for `POST /builds`: save the archive to disk,
try to enqueue the job (a full queue is `ServiceUnavailable`, a closed queue
an internal error), then insert the Queued build record; an insert failure
is an internal error (with no rollback of the archive or the queued job). -/
def api_create_build (env : StoreEnv) (st : ApiState) (build_id : Uuid)
    (deployParam : Option Bool) (body : String) :
    ApiState × Except ApiError CreateBuildResponse :=
  let deploy := deployParam.getD true
  let st1 := { st with archives := st.archives ++ [(build_id, body)] }
  let send := st1.build_queue.try_send { build_id := build_id, deploy := deploy }
  let st2 := { st1 with build_queue := send.1 }
  match send.2 with
  | some .full =>
    (st2, .error (.serviceUnavailable "build queue is full, please try again later"))
  | some .closed => (st2, .error (.internal "build queue is closed"))
  | none =>
    match Database.create_build env st2.db build_id .queued with
    | (db1, .error e) => ({ st2 with db := db1 }, .error (.internal e))
    | (db1, .ok ()) =>
      ({ st2 with db := db1 }, .ok { build_id := build_id, status := .queued })

/-! ## Helper lemmas -/

theorem normalNames_nil : normalNames [] = [] := rfl

theorem normalNames_cons_normal (s : String) (rest : List PathComponent) :
    normalNames (.normal s :: rest) = s :: normalNames rest := rfl

theorem normalNames_cons_curDir (rest : List PathComponent) :
    normalNames (.curDir :: rest) = normalNames rest := rfl

/-- Soundness of the sanitize loop: a successful run means every component
was `Normal` or `CurDir`, and the result is the accumulator followed by the
normal names. -/
theorem sanitizeLoop_ok (p : List PathComponent) (out q : List String)
    (h : sanitizeLoop out p = .ok q) :
    q = out ++ normalNames p ∧ ∀ c ∈ p, c.allowed = true := by
  induction p generalizing out with
  | nil =>
    simp only [sanitizeLoop, Except.ok.injEq] at h
    simp [← h, normalNames_nil]
  | cons c rest ih =>
    cases c with
    | normal s =>
      obtain ⟨hq, hall⟩ := ih (out ++ [s]) h
      refine ⟨by simp [hq, normalNames_cons_normal], ?_⟩
      intro c hc
      rcases List.mem_cons.1 hc with h1 | h1
      · simp [h1, PathComponent.allowed]
      · exact hall c h1
    | curDir =>
      obtain ⟨hq, hall⟩ := ih out h
      refine ⟨by simp [hq, normalNames_cons_curDir], ?_⟩
      intro c hc
      rcases List.mem_cons.1 hc with h1 | h1
      · simp [h1, PathComponent.allowed]
      · exact hall c h1
    | parentDir => exact absurd h (by simp [sanitizeLoop])
    | rootDir => exact absurd h (by simp [sanitizeLoop])

/-- Soundness of archive extraction: a successful extraction unpacked every
entry at the base directory followed by its normal components, every
component was permitted, and every declared size was within the limit. -/
theorem extract_archive_ok (dir : List String) (entries : List TarEntry)
    (out : List (List String)) (h : extract_archive dir entries = .ok out) :
    out = entries.map (fun e => dir ++ normalNames e.path) ∧
    ∀ e ∈ entries, (∀ c ∈ e.path, c.allowed = true) ∧ e.size ≤ MAX_FILE_SIZE := by
  induction entries generalizing out with
  | nil =>
    simp only [extract_archive, Except.ok.injEq] at h
    simp [← h]
  | cons e rest ih =>
    unfold extract_archive at h
    cases hs : sanitize_tar_path e.path dir with
    | error msg => rw [hs] at h; exact absurd h (by simp)
    | ok safe_path =>
      rw [hs] at h
      dsimp only at h
      by_cases hsize : MAX_FILE_SIZE < e.size
      · rw [if_pos hsize] at h; exact absurd h (by simp)
      · rw [if_neg hsize] at h
        cases hr : extract_archive dir rest with
        | error msg => rw [hr] at h; exact absurd h (by simp)
        | ok paths =>
          rw [hr] at h
          simp only [Except.ok.injEq] at h
          obtain ⟨hsafe, hcomps⟩ := sanitizeLoop_ok e.path dir safe_path hs
          obtain ⟨hpaths, hrest⟩ := ih paths hr
          refine ⟨by simp [← h, hsafe, hpaths], ?_⟩
          intro x hx
          rcases List.mem_cons.1 hx with h1 | h1
          · exact h1 ▸ ⟨hcomps, Nat.le_of_not_lt hsize⟩
          · exact hrest x h1

/-- Updating rows whose key does not occur in the list leaves it
unchanged. -/
theorem map_update_noop {α : Type} (l : List α) (key : α → Uuid) (bid : Uuid)
    (f : α → α) (h : ∀ a ∈ l, key a ≠ bid) :
    (l.map fun a => if key a = bid then f a else a) = l := by
  induction l with
  | nil => rfl
  | cons a t ih =>
    have ha : key a ≠ bid := h a (by simp)
    have ht : ∀ x ∈ t, key x ≠ bid := fun x hx => h x (by simp [hx])
    simp [List.map_cons, ha, ih ht]

/-- The store operations are pairs whose second component is always
`.ok ()` (SQL UPDATEs do not fail on zero matched rows). -/
theorem update_deployment_status_pair (db : Database) (did : Uuid)
    (st : DeployStatus) :
    db.update_deployment_status did st =
      ((db.update_deployment_status did st).1, .ok ()) := rfl

theorem set_deployment_container_pair (db : Database) (did : Uuid)
    (cid cname : String) (addr : Option String) :
    db.set_deployment_container did cid cname addr =
      ((db.set_deployment_container did cid cname addr).1, .ok ()) := rfl

/-- `find?` commutes with mapping a function that does not change the
key. -/
theorem find?_map_id_preserved (f : DeploymentRecord → DeploymentRecord)
    (hf : ∀ d, (f d).id = d.id) (l : List DeploymentRecord) (did : Uuid) :
    (l.map f).find? (fun d => d.id == did) =
      (l.find? (fun d => d.id == did)).map f := by
  induction l with
  | nil => rfl
  | cons d t ih =>
    simp only [List.map_cons, List.find?]
    rw [hf d]
    cases hd : (d.id == did) with
    | true => rfl
    | false => exact ih

/-- Reading a deployment after a status update: the same record, with its
status rewritten when its id matches. -/
theorem get_deployment_update_status (db : Database) (did tid : Uuid)
    (st : DeployStatus) :
    ((db.update_deployment_status did st).1).get_deployment tid =
      (db.get_deployment tid).map fun d =>
        if d.id = did then { d with status := st } else d := by
  unfold Database.update_deployment_status Database.get_deployment
  exact find?_map_id_preserved _ (fun d => by split <;> rfl)
    db.deployments tid

/-- The record returned by `get_deployment` carries the queried id. -/
theorem get_deployment_id (db : Database) (tid : Uuid) (r : DeploymentRecord)
    (h : db.get_deployment tid = some r) : r.id = tid := by
  have := List.find?_some h
  simpa using this

/-- Status updates do not touch the `apps` table. -/
theorem apps_update_deployment_status (db : Database) (did : Uuid)
    (st : DeployStatus) :
    ((db.update_deployment_status did st).1).apps = db.apps := rfl

/-- Container recording does not touch the `apps` table. -/
theorem apps_set_deployment_container (db : Database) (did : Uuid)
    (cid cname : String) (addr : Option String) :
    ((db.set_deployment_container did cid cname addr).1).apps = db.apps := rfl

/-- Retiring a previous deployment does not touch the `apps` table. -/
theorem stop_previous_apps (env : DeployEnv) (db : Database) (p : Uuid) :
    (stop_previous_deployment env db p).1.apps = db.apps := by
  unfold stop_previous_deployment
  cases hg : db.get_deployment p with
  | none => rfl
  | some record =>
    dsimp only
    cases hrem : removal_outcome env record with
    | error e => rfl
    | ok u => cases u; rfl

/-- Retiring a previous deployment acts on the deployments table as an
id-preserving map that can only rewrite statuses to `Stopped`. -/
theorem stop_previous_get (env : DeployEnv) (db : Database) (p tid : Uuid) :
    ∃ f : DeploymentRecord → DeploymentRecord,
      (∀ d, (f d).id = d.id) ∧
      (∀ d, (f d).status = d.status ∨ (f d).status = .stopped) ∧
      (stop_previous_deployment env db p).1.get_deployment tid =
        (db.get_deployment tid).map f := by
  unfold stop_previous_deployment
  cases hg : db.get_deployment p with
  | none =>
    refine ⟨id, fun d => rfl, fun d => Or.inl rfl, ?_⟩
    simp
  | some record =>
    dsimp only
    cases hrem : removal_outcome env record with
    | error e =>
      refine ⟨id, fun d => rfl, fun d => Or.inl rfl, ?_⟩
      simp
    | ok u =>
      cases u
      dsimp only
      refine ⟨fun d => if d.id = p then { d with status := .stopped } else d,
        fun d => by by_cases h : d.id = p <;> simp [h],
        fun d => by by_cases h : d.id = p <;> simp [h], ?_⟩
      rw [update_deployment_status_pair db p .stopped]
      dsimp only
      exact get_deployment_update_status db p tid .stopped

/-! ## Claim theorems -/

/-- C3: every archive entry is unpacked exactly at the extraction directory
followed by its `Normal` path components; any component other than
current-directory or a normal name makes extraction fail; hence each
extracted path is a descendant of the extraction directory. -/
theorem extracted_paths_are_descendants :
    (∀ (entries : List TarEntry) (dir : List String) (out : List (List String)),
        extract_archive dir entries = .ok out →
        out = entries.map (fun e => dir ++ normalNames e.path) ∧
        (∀ e ∈ entries, ∀ c ∈ e.path, c.allowed = true) ∧
        (∀ p ∈ out, ∃ rest, p = dir ++ rest)) ∧
    (∀ (entries : List TarEntry) (dir : List String) (e : TarEntry)
        (c : PathComponent), e ∈ entries → c ∈ e.path → c.allowed = false →
        ∃ msg, extract_archive dir entries = .error msg) := by
  constructor
  · intro entries dir out h
    obtain ⟨hout, hall⟩ := extract_archive_ok dir entries out h
    refine ⟨hout, fun e he => (hall e he).1, ?_⟩
    intro p hp
    rw [hout] at hp
    obtain ⟨e, _, hpe⟩ := List.mem_map.1 hp
    exact ⟨normalNames e.path, hpe.symm⟩
  · intro entries dir e c he hc hbad
    cases hres : extract_archive dir entries with
    | error msg => exact ⟨msg, rfl⟩
    | ok out =>
      have := ((extract_archive_ok dir entries out hres).2 e he).1 c hc
      rw [hbad] at this
      exact absurd this (by simp)

/-- Witness for C3 at concrete inputs: a `./`-prefixed entry lands under the
extraction directory, and a parent-directory component is rejected. -/
theorem extracted_paths_are_descendants_witness :
    (∀ p ∈ [["w", "a"]], ∃ rest, p = ["w"] ++ rest) ∧
    (∃ msg,
      extract_archive ["w"] [⟨[.parentDir, .normal "x"], 3⟩] = .error msg) :=
  ⟨(extracted_paths_are_descendants.1 [⟨[.curDir, .normal "a"], 3⟩] ["w"]
      [["w", "a"]] rfl).2.2,
   extracted_paths_are_descendants.2 [⟨[.parentDir, .normal "x"], 3⟩] ["w"]
     ⟨[.parentDir, .normal "x"], 3⟩ .parentDir (by simp) (by simp) rfl⟩

/-- C6: an extraction that succeeds admitted no entry declaring more than
104857600 bytes; an entry of exactly 104857600 bytes passes the size check
while 104857601 bytes is rejected. -/
theorem extract_archive_size_boundary :
    (∀ (entries : List TarEntry) (dir : List String) (out : List (List String)),
        extract_archive dir entries = .ok out →
        ∀ e ∈ entries, e.size ≤ 104857600) ∧
    extract_archive ["w"] [⟨[.normal "big"], 104857600⟩] = .ok [["w", "big"]] ∧
    (∃ msg,
      extract_archive ["w"] [⟨[.normal "big"], 104857601⟩] = .error msg) := by
  refine ⟨?_, rfl, ⟨"file exceeds max size", rfl⟩⟩
  intro entries dir out h e he
  have := ((extract_archive_ok dir entries out h).2 e he).2
  simpa [MAX_FILE_SIZE] using this

/-- Witness for C6: the size bound instantiated at the boundary entry. -/
theorem extract_archive_size_boundary_witness :
    ∀ e ∈ [(⟨[.normal "big"], 104857600⟩ : TarEntry)], e.size ≤ 104857600 :=
  extract_archive_size_boundary.1 [⟨[.normal "big"], 104857600⟩] ["w"]
    [["w", "big"]] rfl

/-- C9: a status UPDATE for a build or deployment id that has no row matches
zero rows, leaves the store unchanged and still reports success. -/
theorem update_status_unknown_id_is_noop :
    (∀ (db : Database) (bid : Uuid) (status : BuildStatus),
        (∀ b ∈ db.builds, b.1 ≠ bid) →
        db.update_build_status bid status = (db, .ok ())) ∧
    (∀ (db : Database) (did : Uuid) (status : DeployStatus),
        (∀ d ∈ db.deployments, d.id ≠ did) →
        db.update_deployment_status did status = (db, .ok ())) := by
  constructor
  · intro db bid status h
    unfold Database.update_build_status
    rw [map_update_noop db.builds (fun b => b.1) bid _ h]
  · intro db did status h
    unfold Database.update_deployment_status
    rw [map_update_noop db.deployments (fun d => d.id) did _ h]

/-- Witness for C9: updating ids absent from a concrete store is a
successful no-op. -/
theorem update_status_unknown_id_is_noop_witness :
    Database.update_build_status ⟨[(5, .queued)], [], []⟩ 7 .failed =
      (⟨[(5, .queued)], [], []⟩, .ok ()) ∧
    Database.update_deployment_status ⟨[(5, .queued)], [], []⟩ 7 .failed =
      (⟨[(5, .queued)], [], []⟩, .ok ()) :=
  ⟨update_status_unknown_id_is_noop.1 ⟨[(5, .queued)], [], []⟩ 7 .failed
      (by decide),
   update_status_unknown_id_is_noop.2 ⟨[(5, .queued)], [], []⟩ 7 .failed
      (by intro d hd; simp at hd)⟩

/-- C7: submitting a build while the queue already holds `capacity` jobs
yields the service-unavailable error, rendered as HTTP 503 with the
queue-full body; submitting while the queue is closed yields an internal
error, rendered as the opaque 500 response. -/
theorem create_build_full_and_closed_queue :
    (∀ (env : StoreEnv) (st : ApiState) (bid : Uuid) (dp : Option Bool)
        (body : String),
        st.build_queue.closed = false →
        st.build_queue.queued.length = st.build_queue.capacity →
        (api_create_build env st bid dp body).2 =
          .error (.serviceUnavailable
            "build queue is full, please try again later") ∧
        ApiError.into_response
            (.serviceUnavailable "build queue is full, please try again later") =
          (503, "\x7b\"error\":\"build queue is full, please try again later\"\x7d")) ∧
    (∀ (env : StoreEnv) (st : ApiState) (bid : Uuid) (dp : Option Bool)
        (body : String),
        st.build_queue.closed = true →
        (api_create_build env st bid dp body).2 =
          .error (.internal "build queue is closed") ∧
        ApiError.into_response (.internal "build queue is closed") =
          (500, "\x7b\"error\":\"internal server error\"\x7d")) := by
  constructor
  · intro env st bid dp body hclosed hfull
    refine ⟨?_, rfl⟩
    have hle : st.build_queue.capacity ≤ st.build_queue.queued.length :=
      Nat.le_of_eq hfull.symm
    simp [api_create_build, BuildQueue.try_send, hclosed, hle]
  · intro env st bid dp body hclosed
    refine ⟨?_, rfl⟩
    simp [api_create_build, BuildQueue.try_send, hclosed]

/-- Witness for C7 at a concrete one-slot queue, both full and closed. -/
theorem create_build_full_and_closed_queue_witness :
    ((api_create_build ⟨.ok ()⟩
        ⟨[], ⟨1, [⟨9, true⟩], false⟩, ⟨[], [], []⟩⟩ 3 none "tgz").2 =
      .error (.serviceUnavailable
        "build queue is full, please try again later")) ∧
    ((api_create_build ⟨.ok ()⟩
        ⟨[], ⟨1, [], true⟩, ⟨[], [], []⟩⟩ 3 none "tgz").2 =
      .error (.internal "build queue is closed")) :=
  ⟨(create_build_full_and_closed_queue.1 ⟨.ok ()⟩
      ⟨[], ⟨1, [⟨9, true⟩], false⟩, ⟨[], [], []⟩⟩ 3 none "tgz" rfl rfl).1,
   (create_build_full_and_closed_queue.2 ⟨.ok ()⟩
      ⟨[], ⟨1, [], true⟩, ⟨[], [], []⟩⟩ 3 none "tgz" rfl).1⟩

/-- C10: when the build-record INSERT fails, the `POST /builds` handler
returns an internal error, yet the archive is already on disk and the job
already sits in the queue, while the store gained no record — the enqueue
and archive save precede the insert and nothing is rolled back. -/
theorem create_build_insert_failure_no_rollback :
    ∀ (msg : String) (st : ApiState) (bid : Uuid) (dp : Option Bool)
      (body : String),
      st.build_queue.closed = false →
      st.build_queue.queued.length < st.build_queue.capacity →
      (∀ b ∈ st.db.builds, b.1 ≠ bid) →
      (api_create_build ⟨.error msg⟩ st bid dp body).2 =
        .error (.internal msg) ∧
      (bid, body) ∈ (api_create_build ⟨.error msg⟩ st bid dp body).1.archives ∧
      (∃ j ∈ (api_create_build ⟨.error msg⟩ st bid dp body).1.build_queue.queued,
        j.build_id = bid) ∧
      (api_create_build ⟨.error msg⟩ st bid dp body).1.db = st.db := by
  intro msg st bid dp body hclosed hroom hfresh
  have hnotfull : ¬ st.build_queue.capacity ≤ st.build_queue.queued.length :=
    Nat.not_le.2 hroom
  have hnocollision : (st.db.builds.any fun b => b.1 == bid) = false := by
    rw [List.any_eq_false]
    intro b hb
    simpa using hfresh b hb
  refine ⟨?_, ?_, ?_, ?_⟩
  · simp [api_create_build, BuildQueue.try_send, Database.create_build,
      hclosed, hnotfull, hnocollision]
  · simp [api_create_build, BuildQueue.try_send, Database.create_build,
      hclosed, hnotfull, hnocollision]
  · simp only [api_create_build, BuildQueue.try_send, Database.create_build,
      hclosed, hnotfull, hnocollision, if_false, if_neg, Bool.false_eq_true,
      List.mem_append, List.mem_singleton]
    refine ⟨{ build_id := bid, deploy := dp.getD true }, ?_, rfl⟩
    simp
  · simp [api_create_build, BuildQueue.try_send, Database.create_build,
      hclosed, hnotfull, hnocollision]

/-- Witness for C10: a concrete submission against an empty store whose
INSERT fails. -/
theorem create_build_insert_failure_no_rollback_witness :
    (api_create_build ⟨.error "db down"⟩ ⟨[], ⟨8, [], false⟩, ⟨[], [], []⟩⟩
        4 (some true) "tgz").2 = .error (.internal "db down") ∧
    (4, "tgz") ∈ (api_create_build ⟨.error "db down"⟩
        ⟨[], ⟨8, [], false⟩, ⟨[], [], []⟩⟩ 4 (some true) "tgz").1.archives ∧
    (∃ j ∈ (api_create_build ⟨.error "db down"⟩
        ⟨[], ⟨8, [], false⟩, ⟨[], [], []⟩⟩ 4 (some true) "tgz").1.build_queue.queued,
      j.build_id = 4) ∧
    (api_create_build ⟨.error "db down"⟩ ⟨[], ⟨8, [], false⟩, ⟨[], [], []⟩⟩
        4 (some true) "tgz").1.db = ⟨[], [], []⟩ :=
  create_build_insert_failure_no_rollback "db down"
    ⟨[], ⟨8, [], false⟩, ⟨[], [], []⟩⟩ 4 (some true) "tgz" rfl (by decide)
    (by intro b hb; simp at hb)

/-- C8 counterexample: `port: 0` is accepted verbatim by the config loader,
so not every accepted port lies in 1–65535. -/
theorem nimble_config_port_zero_accepted :
    NimbleConfig.from_str
        [("builder", .str "go"), ("app", .str "x"), ("port", .int 0)] =
      .ok { builder_type := .go, app := "x", port := 0 } ∧
    ¬ (1 ≤ (0 : Nat)) := ⟨rfl, by decide⟩

/-- C8 amended: parsing fails when `builder` is missing or unknown or when
`app` is missing; a missing (or non-integer) `port` defaults to 8080; an
integer `port` is truncated to 16 bits and accepted without range
validation. -/
theorem nimble_config_from_str_spec :
    (∀ raw : YamlDoc, (yamlGet raw "builder").bind YamlVal.as_str = none →
        NimbleConfig.from_str raw = .error (.missingField "builder")) ∧
    (∀ (raw : YamlDoc) (s : String),
        (yamlGet raw "builder").bind YamlVal.as_str = some s →
        (∀ bt, BuilderType.from_str s ≠ .ok bt) →
        NimbleConfig.from_str raw = .error (.invalidBuilder s)) ∧
    (∀ (raw : YamlDoc) (s : String) (bt : BuilderType),
        (yamlGet raw "builder").bind YamlVal.as_str = some s →
        BuilderType.from_str s = .ok bt →
        (yamlGet raw "app").bind YamlVal.as_str = none →
        NimbleConfig.from_str raw = .error (.missingField "app")) ∧
    (∀ (raw : YamlDoc) (cfg : NimbleConfig),
        NimbleConfig.from_str raw = .ok cfg →
        (yamlGet raw "port").bind YamlVal.as_u64 = none →
        cfg.port = 8080) ∧
    (∀ (raw : YamlDoc) (cfg : NimbleConfig) (n : Nat),
        NimbleConfig.from_str raw = .ok cfg →
        (yamlGet raw "port").bind YamlVal.as_u64 = some n →
        cfg.port = n % 65536) := by
  have hbt : ∀ s : String, BuilderType.from_str s = .ok .dockerfile ∨
      BuilderType.from_str s = .ok .go ∨
      BuilderType.from_str s = .error (.invalidBuilder s) := by
    intro s
    unfold BuilderType.from_str
    split <;> simp
  refine ⟨?_, ?_, ?_, ?_, ?_⟩
  · intro raw h
    unfold NimbleConfig.from_str
    rw [h]
  · intro raw s h hbad
    unfold NimbleConfig.from_str
    rw [h]
    dsimp only
    rcases hbt s with hb | hb | hb
    · exact absurd hb (hbad _)
    · exact absurd hb (hbad _)
    · rw [hb]
  · intro raw s bt h hok happ
    unfold NimbleConfig.from_str
    rw [h]
    dsimp only
    rw [hok]
    dsimp only
    rw [happ]
  · intro raw cfg h hport
    unfold NimbleConfig.from_str at h
    cases hb : (yamlGet raw "builder").bind YamlVal.as_str with
    | none => rw [hb] at h; simp at h
    | some s =>
      rw [hb] at h
      dsimp only at h
      cases hbt2 : BuilderType.from_str s with
      | error e => rw [hbt2] at h; simp at h
      | ok bt =>
        rw [hbt2] at h
        dsimp only at h
        cases ha : (yamlGet raw "app").bind YamlVal.as_str with
        | none => rw [ha] at h; simp at h
        | some app =>
          rw [ha] at h
          simp only [Except.ok.injEq] at h
          rw [← h]
          simp [hport, default_app_port]
  · intro raw cfg n h hport
    unfold NimbleConfig.from_str at h
    cases hb : (yamlGet raw "builder").bind YamlVal.as_str with
    | none => rw [hb] at h; simp at h
    | some s =>
      rw [hb] at h
      dsimp only at h
      cases hbt2 : BuilderType.from_str s with
      | error e => rw [hbt2] at h; simp at h
      | ok bt =>
        rw [hbt2] at h
        dsimp only at h
        cases ha : (yamlGet raw "app").bind YamlVal.as_str with
        | none => rw [ha] at h; simp at h
        | some app =>
          rw [ha] at h
          simp only [Except.ok.injEq] at h
          rw [← h]
          simp [hport]

/-- Witness for the C8 amended theorem at concrete configs: missing builder,
unknown builder, missing app, defaulted port, and a truncated
out-of-range port. -/
theorem nimble_config_from_str_spec_witness :
    NimbleConfig.from_str [("app", .str "x")] =
      .error (.missingField "builder") ∧
    NimbleConfig.from_str [("builder", .str "zig"), ("app", .str "x")] =
      .error (.invalidBuilder "zig") ∧
    NimbleConfig.from_str [("builder", .str "go")] =
      .error (.missingField "app") ∧
    ({ builder_type := .go, app := "x", port := 8080 } : NimbleConfig).port
      = 8080 ∧
    ({ builder_type := .dockerfile, app := "x",
       port := 70000 % 65536 } : NimbleConfig).port = 70000 % 65536 := by
  refine ⟨nimble_config_from_str_spec.1 [("app", .str "x")] rfl, ?_, ?_, ?_, ?_⟩
  · refine nimble_config_from_str_spec.2.1 _ "zig" rfl ?_
    intro bt hb
    rw [show BuilderType.from_str "zig" =
      Except.error (ConfigError.invalidBuilder "zig") from rfl] at hb
    exact absurd hb (by simp)
  · exact nimble_config_from_str_spec.2.2.1 _ "go" .go rfl rfl rfl
  · exact nimble_config_from_str_spec.2.2.2.1
      [("builder", .str "go"), ("app", .str "x")]
      { builder_type := .go, app := "x", port := 8080 } rfl rfl
  · exact nimble_config_from_str_spec.2.2.2.2
      [("builder", .str "Dockerfile"), ("app", .str "x"), ("port", .int 70000)]
      { builder_type := .dockerfile, app := "x", port := 70000 % 65536 }
      70000 rfl rfl

/-- C1: `process_deploy` never writes the `apps` table — in particular it
never calls `set_active_deployment` — so an app's `active_deployment_id` is
unchanged no matter how the deploy job ends. -/
theorem process_deploy_preserves_apps :
    ∀ (env : DeployEnv) (db : Database) (job : DeployJob),
      (process_deploy env db job).1.apps = db.apps := by
  intro env db job
  unfold process_deploy
  dsimp only [Database.update_deployment_status, Database.set_deployment_container]
  repeat' split
  all_goals simp [stop_previous_apps]

/-- C5 counterexample: a `docker rm` failure whose stderr does not mention
"no such container" makes retirement abort with an error before the
`Stopped` update, leaving the record's status untouched — refuting
"regardless of the engine-side outcome, the status is updated to
Stopped". -/
theorem stop_previous_rm_failure_cex :
    (stop_previous_deployment
        ⟨none, some ⟨false, "", "permission denied"⟩, none⟩
        ⟨[], [⟨2, 11, "a", "img", .running, some "cid", some "nimble-deploy-2",
          some "http://127.0.0.1:4567"⟩], []⟩ 2).2 =
      .error (.dockerRmFailed "permission denied") ∧
    ((stop_previous_deployment
        ⟨none, some ⟨false, "", "permission denied"⟩, none⟩
        ⟨[], [⟨2, 11, "a", "img", .running, some "cid", some "nimble-deploy-2",
          some "http://127.0.0.1:4567"⟩], []⟩ 2).1.get_deployment 2).map
      DeploymentRecord.status = some .running := ⟨rfl, rfl⟩

/-- C5 amended: an absent record succeeds with no write; when the removal
block succeeds — in particular when `docker rm` fails but its stderr
mentions "no such container" — the record's status is updated to `Stopped`;
a removal failure with any other stderr is an error and the status is not
updated. -/
theorem stop_previous_deployment_spec :
    (∀ (env : DeployEnv) (db : Database) (did : Uuid),
        db.get_deployment did = none →
        stop_previous_deployment env db did = (db, .ok ())) ∧
    (∀ (env : DeployEnv) (db : Database) (did : Uuid)
        (record : DeploymentRecord),
        db.get_deployment did = some record →
        removal_outcome env record = .ok () →
        (stop_previous_deployment env db did).2 = .ok () ∧
        ((stop_previous_deployment env db did).1.get_deployment did).map
          DeploymentRecord.status = some .stopped) ∧
    (∀ (env : DeployEnv) (db : Database) (did : Uuid)
        (record : DeploymentRecord) (e : DeployError),
        db.get_deployment did = some record →
        removal_outcome env record = .error e →
        stop_previous_deployment env db did = (db, .error e)) ∧
    (∀ (env : DeployEnv) (record : DeploymentRecord) (cref : String)
        (out : CmdOutput),
        record.container_name.or record.container_id = some cref →
        env.rm = some out → out.success = false →
        strContains (strToLower out.stderr) "no such container" = true →
        removal_outcome env record = .ok ()) := by
  refine ⟨?_, ?_, ?_, ?_⟩
  · intro env db did h
    unfold stop_previous_deployment
    rw [h]
  · intro env db did record hg hrem
    unfold stop_previous_deployment
    rw [hg]
    dsimp only
    rw [hrem]
    dsimp only
    rw [update_deployment_status_pair db did .stopped]
    dsimp only
    refine ⟨rfl, ?_⟩
    rw [get_deployment_update_status, hg]
    simp [get_deployment_id db did record hg]
  · intro env db did record e hg hrem
    unfold stop_previous_deployment
    rw [hg]
    dsimp only
    rw [hrem]
  · intro env record cref out hcr hrm hfail hnsc
    unfold removal_outcome
    rw [hcr]
    dsimp only
    rw [hrm]
    dsimp only
    simp [hfail, hnsc]

/-- Witness for the C5 amended theorem at concrete inputs: an absent
record, a tolerated "no such container" removal failure followed by the
`Stopped` update, and an aborting removal failure. -/
theorem stop_previous_deployment_spec_witness :
    stop_previous_deployment ⟨none, none, none⟩ ⟨[], [], []⟩ 9 =
      (⟨[], [], []⟩, .ok ()) ∧
    ((stop_previous_deployment
        ⟨none, some ⟨false, "", "Error: No SUCH containeR: gone"⟩, none⟩
        ⟨[], [⟨3, 12, "b", "img2", .running, some "cid3", none, none⟩], []⟩
        3).2 = .ok () ∧
      ((stop_previous_deployment
        ⟨none, some ⟨false, "", "Error: No SUCH containeR: gone"⟩, none⟩
        ⟨[], [⟨3, 12, "b", "img2", .running, some "cid3", none, none⟩], []⟩
        3).1.get_deployment 3).map DeploymentRecord.status = some .stopped) ∧
    stop_previous_deployment ⟨none, some ⟨false, "", "daemon not running"⟩, none⟩
        ⟨[], [⟨4, 13, "c", "img3", .running, none, some "n4", none⟩], []⟩ 4 =
      (⟨[], [⟨4, 13, "c", "img3", .running, none, some "n4", none⟩], []⟩,
        .error (.dockerRmFailed "daemon not running")) ∧
    removal_outcome
        ⟨none, some ⟨false, "", "Error: No SUCH containeR: gone"⟩, none⟩
        ⟨3, 12, "b", "img2", .running, some "cid3", none, none⟩ = .ok () :=
  ⟨stop_previous_deployment_spec.1 ⟨none, none, none⟩ ⟨[], [], []⟩ 9 rfl,
   stop_previous_deployment_spec.2.1
     ⟨none, some ⟨false, "", "Error: No SUCH containeR: gone"⟩, none⟩
     ⟨[], [⟨3, 12, "b", "img2", .running, some "cid3", none, none⟩], []⟩ 3
     ⟨3, 12, "b", "img2", .running, some "cid3", none, none⟩ rfl rfl,
   stop_previous_deployment_spec.2.2.1
     ⟨none, some ⟨false, "", "daemon not running"⟩, none⟩
     ⟨[], [⟨4, 13, "c", "img3", .running, none, some "n4", none⟩], []⟩ 4
     ⟨4, 13, "c", "img3", .running, none, some "n4", none⟩
     (.dockerRmFailed "daemon not running") rfl rfl,
   stop_previous_deployment_spec.2.2.2
     ⟨none, some ⟨false, "", "Error: No SUCH containeR: gone"⟩, none⟩
     ⟨3, 12, "b", "img2", .running, some "cid3", none, none⟩ "cid3"
     ⟨false, "", "Error: No SUCH containeR: gone"⟩ rfl rfl rfl rfl⟩

/-- C2 counterexample: a deploy whose `docker run` succeeds but whose
`docker port` lookup fails aborts with that error while the deployment's
status is still `Deploying`, not `Failed` — refuting "any step of the
deploy path fails ⇒ status is set to Failed". -/
theorem process_deploy_port_failure_cex :
    (process_deploy ⟨some ⟨true, "abc123\n", ""⟩, none, some ⟨false, "", "boom"⟩⟩
        ⟨[], [⟨1, 10, "hello", "img", .queued, none, none, none⟩], [("hello", none)]⟩
        ⟨1, 10, "hello", none, "img", 8080⟩).2 =
      .error (.dockerPortFailed "boom") ∧
    ((process_deploy ⟨some ⟨true, "abc123\n", ""⟩, none, some ⟨false, "", "boom"⟩⟩
        ⟨[], [⟨1, 10, "hello", "img", .queued, none, none, none⟩], [("hello", none)]⟩
        ⟨1, 10, "hello", none, "img", 8080⟩).1.get_deployment 1).map
      DeploymentRecord.status = some .deploying := ⟨rfl, rfl⟩

/-- C2 amended: a `docker run` that exits non-zero, or a run whose trimmed
stdout is empty, marks the deployment `Failed` and aborts; a host-port
lookup failure aborts with the lookup's error without marking `Failed`
(the status it leaves behind is never `Failed`). -/
theorem process_deploy_failure_marking :
    (∀ (env : DeployEnv) (db : Database) (job : DeployJob) (out : CmdOutput),
        env.run = some out → out.success = false →
        (process_deploy env db job).2 = .error (.dockerRunFailed out.stderr) ∧
        ((process_deploy env db job).1.get_deployment job.deploy_id).map
          DeploymentRecord.status =
          (db.get_deployment job.deploy_id).map fun _ => DeployStatus.failed) ∧
    (∀ (env : DeployEnv) (db : Database) (job : DeployJob) (out : CmdOutput),
        env.run = some out → out.success = true →
        strIsEmpty (strTrim out.stdout) = true →
        (process_deploy env db job).2 = .error .noContainerId ∧
        ((process_deploy env db job).1.get_deployment job.deploy_id).map
          DeploymentRecord.status =
          (db.get_deployment job.deploy_id).map fun _ => DeployStatus.failed) ∧
    (∀ (env : DeployEnv) (db : Database) (job : DeployJob) (out : CmdOutput)
        (e : DeployError),
        env.run = some out → out.success = true →
        strIsEmpty (strTrim out.stdout) = false →
        lookup_host_port env = .error e →
        (process_deploy env db job).2 = .error e ∧
        ((process_deploy env db job).1.get_deployment job.deploy_id).map
          DeploymentRecord.status ≠ some DeployStatus.failed) := by
  refine ⟨?_, ?_, ?_⟩
  · intro env db job out hrun hfail
    unfold process_deploy
    rw [update_deployment_status_pair db job.deploy_id .deploying]
    dsimp only
    rw [hrun]
    dsimp only
    rw [if_pos hfail]
    rw [update_deployment_status_pair _ job.deploy_id .failed]
    dsimp only
    refine ⟨rfl, ?_⟩
    rw [get_deployment_update_status]
    cases hp : job.previous_active_deployment with
    | none =>
      dsimp only
      rw [get_deployment_update_status]
      cases hgd : db.get_deployment job.deploy_id with
      | none => simp
      | some r => simp [get_deployment_id db job.deploy_id r hgd]
    | some prev =>
      dsimp only
      obtain ⟨f, hfid, hfst, hget⟩ := stop_previous_get env
        ((db.update_deployment_status job.deploy_id .deploying).1) prev
        job.deploy_id
      rw [hget, get_deployment_update_status]
      cases hgd : db.get_deployment job.deploy_id with
      | none => simp
      | some r => simp [hfid, get_deployment_id db job.deploy_id r hgd]
  · intro env db job out hrun hsucc hempty
    unfold process_deploy
    rw [update_deployment_status_pair db job.deploy_id .deploying]
    dsimp only
    rw [hrun]
    dsimp only
    rw [if_neg (by simp [hsucc]), if_pos hempty]
    rw [update_deployment_status_pair _ job.deploy_id .failed]
    dsimp only
    refine ⟨rfl, ?_⟩
    rw [get_deployment_update_status]
    cases hp : job.previous_active_deployment with
    | none =>
      dsimp only
      rw [get_deployment_update_status]
      cases hgd : db.get_deployment job.deploy_id with
      | none => simp
      | some r => simp [get_deployment_id db job.deploy_id r hgd]
    | some prev =>
      dsimp only
      obtain ⟨f, hfid, hfst, hget⟩ := stop_previous_get env
        ((db.update_deployment_status job.deploy_id .deploying).1) prev
        job.deploy_id
      rw [hget, get_deployment_update_status]
      cases hgd : db.get_deployment job.deploy_id with
      | none => simp
      | some r => simp [hfid, get_deployment_id db job.deploy_id r hgd]
  · intro env db job out e hrun hsucc hnonempty hport
    unfold process_deploy
    rw [update_deployment_status_pair db job.deploy_id .deploying]
    dsimp only
    rw [hrun]
    dsimp only
    rw [if_neg (by simp [hsucc]), if_neg (by simp [hnonempty]), hport]
    dsimp only
    refine ⟨rfl, ?_⟩
    cases hp : job.previous_active_deployment with
    | none =>
      dsimp only
      rw [get_deployment_update_status]
      cases hgd : db.get_deployment job.deploy_id with
      | none => simp
      | some r => simp [get_deployment_id db job.deploy_id r hgd]
    | some prev =>
      dsimp only
      obtain ⟨f, hfid, hfst, hget⟩ := stop_previous_get env
        ((db.update_deployment_status job.deploy_id .deploying).1) prev
        job.deploy_id
      rw [hget, get_deployment_update_status]
      cases hgd : db.get_deployment job.deploy_id with
      | none => simp
      | some r =>
        have hid : r.id = job.deploy_id := get_deployment_id db job.deploy_id r hgd
        simp only [Option.map_some']
        rw [if_pos hid]
        rcases hfst { r with status := DeployStatus.deploying } with hs | hs <;>
          rw [hs] <;> simp

/-- Witness for the C2 amended theorem at concrete deploys: a failed
`docker run`, an empty container id, and a failed port lookup. -/
theorem process_deploy_failure_marking_witness :
    ((process_deploy ⟨some ⟨false, "", "image not found"⟩, none, none⟩
        ⟨[], [⟨6, 20, "w1", "i1", .queued, none, none, none⟩], []⟩
        ⟨6, 20, "w1", none, "i1", 80⟩).2 =
      .error (.dockerRunFailed "image not found") ∧
      ((process_deploy ⟨some ⟨false, "", "image not found"⟩, none, none⟩
        ⟨[], [⟨6, 20, "w1", "i1", .queued, none, none, none⟩], []⟩
        ⟨6, 20, "w1", none, "i1", 80⟩).1.get_deployment 6).map
        DeploymentRecord.status =
        ((⟨[], [⟨6, 20, "w1", "i1", .queued, none, none, none⟩], []⟩ :
          Database).get_deployment 6).map fun _ => DeployStatus.failed) ∧
    ((process_deploy ⟨some ⟨true, " \n ", ""⟩, none, none⟩
        ⟨[], [⟨7, 21, "w2", "i2", .queued, none, none, none⟩], []⟩
        ⟨7, 21, "w2", none, "i2", 80⟩).2 = .error .noContainerId ∧
      ((process_deploy ⟨some ⟨true, " \n ", ""⟩, none, none⟩
        ⟨[], [⟨7, 21, "w2", "i2", .queued, none, none, none⟩], []⟩
        ⟨7, 21, "w2", none, "i2", 80⟩).1.get_deployment 7).map
        DeploymentRecord.status =
        ((⟨[], [⟨7, 21, "w2", "i2", .queued, none, none, none⟩], []⟩ :
          Database).get_deployment 7).map fun _ => DeployStatus.failed) ∧
    ((process_deploy ⟨some ⟨true, "cid8\n", ""⟩, none, none⟩
        ⟨[], [⟨8, 22, "w3", "i3", .queued, none, none, none⟩], []⟩
        ⟨8, 22, "w3", none, "i3", 80⟩).2 =
      .error (.execFailed "Failed to query docker port mapping") ∧
      ((process_deploy ⟨some ⟨true, "cid8\n", ""⟩, none, none⟩
        ⟨[], [⟨8, 22, "w3", "i3", .queued, none, none, none⟩], []⟩
        ⟨8, 22, "w3", none, "i3", 80⟩).1.get_deployment 8).map
        DeploymentRecord.status ≠ some DeployStatus.failed) :=
  ⟨process_deploy_failure_marking.1 ⟨some ⟨false, "", "image not found"⟩, none, none⟩
      ⟨[], [⟨6, 20, "w1", "i1", .queued, none, none, none⟩], []⟩
      ⟨6, 20, "w1", none, "i1", 80⟩ ⟨false, "", "image not found"⟩ rfl rfl,
   process_deploy_failure_marking.2.1 ⟨some ⟨true, " \n ", ""⟩, none, none⟩
      ⟨[], [⟨7, 21, "w2", "i2", .queued, none, none, none⟩], []⟩
      ⟨7, 21, "w2", none, "i2", 80⟩ ⟨true, " \n ", ""⟩ rfl rfl rfl,
   process_deploy_failure_marking.2.2 ⟨some ⟨true, "cid8\n", ""⟩, none, none⟩
      ⟨[], [⟨8, 22, "w3", "i3", .queued, none, none, none⟩], []⟩
      ⟨8, 22, "w3", none, "i3", 80⟩ ⟨true, "cid8\n", ""⟩
      (.execFailed "Failed to query docker port mapping") rfl rfl rfl rfl⟩

/-- The build worker makes no store writes while processing a job (its
snapshot holds no store handle; the body carries the TODO
"set build as failed in DB"). -/
theorem process_build_fst (env : BuildEnv) (db : Database) (job : BuildJob) :
    (process_build env db job).1 = db := by
  unfold process_build
  dsimp only
  repeat' split
  all_goals rfl

/-- C4: the build worker's run loop handles every queued job — a per-job
failure yields that job's error outcome and the loop continues, exiting
only when the queue is closed (the job list ends) — but the store is left
exactly as it was: no build is ever marked `Failed` (or anything else). -/
theorem build_worker_continues_but_records_nothing :
    ∀ (db : Database) (jobs : List (BuildJob × BuildEnv)),
      (BuildWorker_run db jobs).1 = db ∧
      (BuildWorker_run db jobs).2 =
        jobs.map fun je => (process_build je.2 db je.1).2 := by
  intro db jobs
  induction jobs generalizing db with
  | nil => exact ⟨rfl, rfl⟩
  | cons je rest ih =>
    cases je with
    | mk job env =>
      unfold BuildWorker_run
      dsimp only
      rw [process_build_fst env db job]
      exact ⟨(ih db).1, by simp [(ih db).2]⟩

end Nimble
